import Mathlib

/-!
Verification development for a Selenium-based form-filling repository.

The definitions below are a shallow embedding, translated statement by
statement from the Python sources:
  - `form_interaction.py` (class `FormInteraction`: `process_form`,
    `handle_dropdown`, `handle_privacy_field`, `select_checkbox_by_xpath`),
  - `formTester.py` (`test_forms`),
  - `form_submitter.py` (`process_forms`).

Browser effects are modelled by explicit environment records: the page is a
function from locator strings to element facts, clicks and script executions
are recorded as explicit action values, and Python exceptions in the sources
are modelled by the `Option`/result branches that the code's `try/except`
blocks induce.
-/

namespace SeleniumAutomation

/-- Python `str.lower()` restricted to the ASCII case used by the sources. -/
def strLower (s : String) : String := String.mk (s.toList.map Char.toLower)

/-- Leading-segment test on character lists (`needle` starts `hay`). -/
def charsLE : List Char → List Char → Bool
  | [], _ => true
  | _ :: _, [] => false
  | a :: as, b :: bs => a == b && charsLE as bs

/-- Contiguous-substring test on character lists, Python's `needle in hay`. -/
def charsSub : List Char → List Char → Bool
  | n, [] => charsLE n []
  | n, h :: t => charsLE n (h :: t) || charsSub n t

/-- Python's substring operator `needle in hay` on strings. -/
def strSub (needle hay : String) : Bool := charsSub needle.toList hay.toList

/-- Truthiness of Python `s.strip()`: some non-whitespace character exists. -/
def stripTruthy (s : String) : Bool := s.toList.any (fun c => !c.isWhitespace)

/-- Scalar values the user profile carries (Python strings and booleans). -/
inductive PyVal where
  | str (s : String)
  | bool (b : Bool)
deriving DecidableEq, Repr

/-- Python `isinstance(v, bool)`. -/
def PyVal.isBool : PyVal → Bool
  | .bool _ => true
  | .str _ => false

/-- A Python dict of user data, modelled as an insertion-ordered association
list with the keys assumed distinct (dict semantics). -/
abbrev Profile := List (String × PyVal)

/-- Python `profile[k]` / `k in profile`: first binding for `k`. -/
def lookupProfile (profile : Profile) (k : String) : Option PyVal :=
  (profile.find? (fun p => p.1 == k)).map (·.2)

/-- The literal `field_mappings` dict of `FormInteraction.process_form`
(`form_interaction.py` lines 44-55), in declaration order. -/
def field_mappings : List (String × List String) :=
  [ ("Street", ["Street", "StreetAddress", "Address", "AddressLine1", "addr1"]),
    ("StreetAddress", ["Street", "StreetAddress", "Address", "AddressLine1", "addr1"]),
    ("Address", ["Street", "StreetAddress", "Address", "AddressLine1", "addr1"]),
    ("Email", ["Email", "EmailAddress", "email_address"]),
    ("ConfirmEmail", ["ConfirmEmail", "EmailConfirm", "email_confirm", "verify_email"]),
    ("Phone", ["Phone", "Telephone", "PhoneNumber", "phone_number", "Mobile"]),
    ("City", ["City", "Town", "city_name"]),
    ("Zipcode", ["Zipcode", "ZipCode", "PostalCode", "Zip", "postal_code", "zip_code"]),
    ("State", ["State", "Province", "Region", "state_province"]),
    ("Country", ["Country", "Nation", "country_name"]) ]

/-- The declared-field value resolution of `process_form`
(`form_interaction.py` lines 70-85), parameterised by the alias table:
direct dict membership first, then the first mapping (in declaration order)
whose synonym list contains `field_name` verbatim and whose canonical key is
present in the profile. -/
def resolveDeclaredWith (mappings : List (String × List String))
    (profile : Profile) (field_name : String) : Option PyVal :=
  match lookupProfile profile field_name with
  | some v => some v
  | none =>
    match mappings.find?
        (fun m => m.2.contains field_name && (lookupProfile profile m.1).isSome) with
    | some m => lookupProfile profile m.1
    | none => none

/-- Declared-field resolution with the source's literal alias table. -/
def resolveDeclared (profile : Profile) (field_name : String) : Option PyVal :=
  resolveDeclaredWith field_mappings profile field_name

/-- Direct loose matching of the additional-field loop
(`form_interaction.py` lines 136-141): first profile entry whose lowered key
contains, or is contained in, the lowered field name. -/
def matchAdditional (profile : Profile) (fname : String) : Option (String × PyVal) :=
  profile.find? (fun p => strSub (strLower p.1) fname || strSub fname (strLower p.1))

/-- Alias fallback of the additional-field loop
(`form_interaction.py` lines 144-153): first mapping whose canonical key is in
the profile and one of whose lowered synonyms contains, or is contained in,
the lowered field name. -/
def aliasLoose (profile : Profile) (fname : String) : Option (String × PyVal) :=
  match field_mappings.find?
      (fun m => (lookupProfile profile m.1).isSome &&
        m.2.any (fun pf => strSub (strLower pf) fname || strSub fname (strLower pf))) with
  | some m => (lookupProfile profile m.1).map (fun v => (m.1, v))
  | none => none

/-- Full additional-field resolution (`form_interaction.py` lines 123-156):
the field name is lowered; the direct loose match runs first; a falsy
(`None` or empty-string) matched key triggers the alias fallback; a final
falsy key is treated as no match (`if not matching_key: continue`). -/
def resolveAdditional (profile : Profile) (field_name_raw : String) :
    Option (String × PyVal) :=
  let fname := strLower field_name_raw
  let afterAlias :=
    match matchAdditional profile fname with
    | some (k, v) =>
      if k == "" then
        match aliasLoose profile fname with
        | some r => some r
        | none => some (k, v)
      else some (k, v)
    | none => aliasLoose profile fname
  match afterAlias with
  | some (k, v) => if k == "" then none else some (k, v)
  | none => none

/-- One `<option>` of a native select: visible text and value attribute. -/
structure SelectOption where
  text : String
  val : String
deriving DecidableEq, Repr

/-- Index of the first list element satisfying `p` (Selenium picks the first
matching option). -/
def idxBy (p : SelectOption → Bool) : List SelectOption → Option Nat
  | [] => none
  | o :: t => if p o then some 0 else (idxBy p t).map (· + 1)

/-- Selenium `select_by_visible_text t`: first option with exactly that text,
`none` when the raised `NoSuchElementException` is swallowed by the caller. -/
def findTextIdx (opts : List SelectOption) (t : String) : Option Nat :=
  idxBy (fun o => o.text == t) opts

/-- Selenium `select_by_value v`: first option with exactly that value. -/
def findValIdx (opts : List SelectOption) (v : String) : Option Nat :=
  idxBy (fun o => o.val == v) opts

/-- Which strategy of `handle_dropdown` performed the selection. -/
inductive Strat where
  | visibleText
  | byValue
  | substrText
  | lastValid
  | indexOne
deriving DecidableEq, Repr

/-- Placeholder test of `handle_dropdown`'s fallback
(`form_interaction.py` line 249): lowered text is exactly one of the tokens. -/
def isPlaceholderText (t : String) : Bool :=
  strLower t == "select" || strLower t == "choose" ||
    strLower t == "pick" || strLower t == "---"

/-- An option the fallback accepts: truthy stripped text, not a placeholder. -/
def isValidOption (o : SelectOption) : Bool :=
  stripTruthy o.text && !(isPlaceholderText o.text)

/-- Strategy 3 of `handle_dropdown` (lines 219-229): first option whose
lowered text contains the lowered desired value, then re-selected through
`select_by_visible_text` of that option's text. -/
def strategy3 (opts : List SelectOption) (value : String) : Option Nat :=
  match opts.find? (fun o => strSub (strLower value) (strLower o.text)) with
  | some o => findTextIdx opts o.text
  | none => none

/-- Strategy 5 of `handle_dropdown` (lines 242-258): scan the reversed option
list for the first valid option, then select it by its visible text. -/
def strategy5 (opts : List SelectOption) : Option Nat :=
  match opts.reverse.find? isValidOption with
  | some o => findTextIdx opts o.text
  | none => none

/-- The native path of `FormInteraction.handle_dropdown`
(`form_interaction.py` lines 199-266): strategies tried in order with every
internal failure swallowed; result is the index the control ends up on and
the strategy that set it, or `none` when even `select_by_index(1)` raised.
The custom-rendered branch of the same function (its `except` handler) is
`handle_custom_dropdown` below. -/
def handle_dropdown (opts : List SelectOption) (value : String) : Option (Nat × Strat) :=
  match findTextIdx opts value with
  | some i => some (i, .visibleText)
  | none =>
    match findValIdx opts value with
    | some i => some (i, .byValue)
    | none =>
      match strategy3 opts value with
      | some i => some (i, .substrText)
      | none =>
        match strategy5 opts with
        | some i => some (i, .lastValid)
        | none => if 1 < opts.length then some (1, .indexOne) else none

/-- Index of the LAST valid option of a list, written as a left recursion that
prefers the tail; this is the reference function the fallback claim speaks
about. -/
def lastIdxBy (p : SelectOption → Bool) : List SelectOption → Option Nat
  | [] => none
  | o :: t =>
    match lastIdxBy p t with
    | some i => some (i + 1)
    | none => if p o then some 0 else none

/-- Index of the last fallback-valid option. -/
def lastValidIdx (opts : List SelectOption) : Option Nat :=
  lastIdxBy isValidOption opts

/-- Validity test of the custom-dropdown fallback (`form_interaction.py`
line 319), the same text test as the native one: truthy stripped text, not a
placeholder token. -/
def isValidItemText (t : String) : Bool :=
  stripTruthy t && !(isPlaceholderText t)

/-- Index of the first item text satisfying `p` (the custom-path loops click
the first matching discovered item). -/
def firstIdxWhere (p : String → Bool) : List String → Option Nat
  | [] => none
  | a :: t => if p a then some 0 else (firstIdxWhere p t).map (· + 1)

/-- Index of the last item text satisfying `p`, written as a left recursion
that prefers the tail (the custom fallback's `reversed` scan). -/
def lastIdxWhere (p : String → Bool) : List String → Option Nat
  | [] => none
  | a :: t =>
    match lastIdxWhere p t with
    | some i => some (i + 1)
    | none => if p a then some 0 else none

/-- Which step of the custom-dropdown branch clicked an item. -/
inductive CustomStrat where
  | exactText
  | substrItem
  | lastValidItem
  | lastItem
deriving DecidableEq, Repr

/-- The custom-dropdown `except` branch of `FormInteraction.handle_dropdown`
(`form_interaction.py` lines 271-332), reached when the control is not a
native select: over the discovered item texts, an exact lowered-text match
is clicked first, then a lowered-substring match, then the LAST valid item
directly (`last_valid_item.click()`, no re-selection by text), and when no
item is valid the code clicks `dropdown_items[-1]` — the last item, whatever
its ordinal.  `none` means no item was discovered, so nothing was clicked. -/
def handle_custom_dropdown (items : List String) (value : String) :
    Option (Nat × CustomStrat) :=
  match firstIdxWhere (fun t => strLower t == strLower value) items with
  | some i => some (i, .exactText)
  | none =>
    match firstIdxWhere (fun t => strSub (strLower value) (strLower t)) items with
    | some i => some (i, .substrItem)
    | none =>
      if 0 < items.length then
        match lastIdxWhere isValidItemText items with
        | some i => some (i, .lastValidItem)
        | none => some (items.length - 1, .lastItem)
      else none

/-- A declared field's descriptor as `process_form` reads it:
`xpath`, `type` and `found` keys of the scraped JSON. -/
structure FieldInfo where
  xpath : String
  ftype : String
  found : Bool
deriving DecidableEq, Repr

/-- An entry of the `additional_fields` sequence. -/
structure AdditionalField where
  field_name : String
  xpath : String
  element_type : String
deriving DecidableEq, Repr

/-- A form entry as `process_form` consumes it. -/
structure FormEntryModel where
  fields : List (String × FieldInfo)
  additional_fields : List AdditionalField
deriving DecidableEq, Repr

/-- Python `entry.get('fields', {}).get(name, {})`. -/
def lookupField (entry : FormEntryModel) (name : String) : Option FieldInfo :=
  (entry.fields.find? (fun p => p.1 == name)).map (·.2)

/-- Page interactions the orchestrator can perform, recorded as a trace.
Element lookups/waits are included because the claims quantify over them. -/
inductive PageAction where
  | waitClickable (xpath : String)
  | dropdown (xpath : String)
  | checkboxSet (xpath : String)
  | clearAndType (xpath : String)
  | privacyScroll
  | privacyClick
deriving DecidableEq, Repr

/-- Facts about the live page the ordinary field handling consults, one
function per driver capability used by `process_form`. -/
structure PageEnv where
  clickable : String → Bool
  tagName : String → String
  interactOk : String → Bool

/-- Facts the privacy/consent handler consults about the page. -/
structure PrivacyEnv where
  vueFound : Bool
  presentAt : Bool
  isCheckboxType : Bool
  isSelected : Bool
  clickOk : Bool
deriving DecidableEq, Repr

/-- Result of `handle_privacy_field` (the Python function returns `None`;
this is the branch it exits through, the spec's `Applied`/`Failed`). -/
inductive PrivacyOutcome where
  | noElement
  | alreadySelected
  | clicked
  | allFailed
deriving DecidableEq, Repr

/-- Element search of `handle_privacy_field` (`form_interaction.py` lines
341-392): Vue-specific CSS probes first, else the entry's `Privacy` field,
guarded by its `found` flag and a non-empty xpath, then a presence wait with
an ID fallback (abstracted as `presentAt`). -/
def privacyElemFound (priv : PrivacyEnv) (entry : FormEntryModel) : Bool :=
  if priv.vueFound then true
  else
    match lookupField entry "Privacy" with
    | some info => info.found && info.xpath != "" && priv.presentAt
    | none => false

/-- `FormInteraction.handle_privacy_field` (`form_interaction.py` lines
334-456): after the element search of `privacyElemFound`, when the element's
`type` attribute is `checkbox` and it is already selected the function
returns before any scroll or click (lines 394-397); otherwise it scrolls the
element into view and runs the click-strategy cascade, every strategy failure
swallowed. -/
def handle_privacy_field (priv : PrivacyEnv) (entry : FormEntryModel) :
    PrivacyOutcome × List PageAction :=
  if !(privacyElemFound priv entry) then (.noElement, [])
  else if priv.isCheckboxType && priv.isSelected then (.alreadySelected, [])
  else if priv.clickOk then (.clicked, [.privacyScroll, .privacyClick])
  else (.allFailed, [.privacyScroll])

/-- Per-field outcome of the orchestrator, the spec's `FillOutcome`. -/
inductive Outcome where
  | filled (name : String) (value : PyVal)
  | submitLogged
  | skippedNoMatch (name : String)
  | skippedNoLocator (name : String)
  | elementNotFound (name : String)
  | interactionFailed (name : String)
deriving DecidableEq, Repr

/-- Whether an outcome counts toward `filled_fields`. -/
def Outcome.isFilledB : Outcome → Bool
  | .filled _ _ => true
  | _ => false

/-- One iteration of the declared-field loop of `process_form`
(`form_interaction.py` lines 57-118): the `Submit` special case (which only
`continue`s when an xpath is present), value resolution, the empty-xpath
skip, the clickability wait, and the dispatch on `type`/tag name.  The
element wait and each committed interaction are recorded as actions; the
`found` flag is faithfully never read. -/
def processDeclaredField (page : PageEnv) (profile : Profile)
    (field : String × FieldInfo) : Outcome × List PageAction :=
  let name := field.1
  let info := field.2
  if name == "Submit" && info.xpath != "" then (.submitLogged, [])
  else
    match resolveDeclared profile name with
    | none => (.skippedNoMatch name, [])
    | some v =>
      if info.xpath == "" then (.skippedNoLocator name, [])
      else if !(page.clickable info.xpath) then
        (.elementNotFound name, [.waitClickable info.xpath])
      else
        let et := strLower info.ftype
        if et == "select" || strLower (page.tagName info.xpath) == "select" then
          (.filled name v, [.waitClickable info.xpath, .dropdown info.xpath])
        else if et == "checkbox" && v.isBool then
          (.filled name v, [.waitClickable info.xpath, .checkboxSet info.xpath])
        else if page.interactOk info.xpath then
          (.filled name v, [.waitClickable info.xpath, .clearAndType info.xpath])
        else (.interactionFailed name, [.waitClickable info.xpath, .clearAndType info.xpath])

/-- One iteration of the additional-field loop of `process_form`
(`form_interaction.py` lines 121-180): lowered name, the empty-xpath skip
before matching, loose resolution, then the same wait-and-dispatch shape. -/
def processAdditionalField (page : PageEnv) (profile : Profile)
    (af : AdditionalField) : Outcome × List PageAction :=
  let fname := strLower af.field_name
  if af.xpath == "" then (.skippedNoLocator fname, [])
  else
    match resolveAdditional profile af.field_name with
    | none => (.skippedNoMatch fname, [])
    | some (_, v) =>
      if !(page.clickable af.xpath) then
        (.elementNotFound fname, [.waitClickable af.xpath])
      else
        let et := strLower af.element_type
        if et == "select" || strLower (page.tagName af.xpath) == "select" then
          (.filled fname v, [.waitClickable af.xpath, .dropdown af.xpath])
        else if et == "checkbox" && v.isBool then
          (.filled fname v, [.waitClickable af.xpath, .checkboxSet af.xpath])
        else if page.interactOk af.xpath then
          (.filled fname v, [.waitClickable af.xpath, .clearAndType af.xpath])
        else (.interactionFailed fname, [.waitClickable af.xpath, .clearAndType af.xpath])

/-- Python `len(filled_fields) > 0`. -/
def succeededOf (outcomes : List Outcome) : Bool :=
  decide (0 < (outcomes.filter Outcome.isFilledB).length)

/-- Result of `process_form`: the per-field outcomes, the returned boolean,
and the page-action trace (including the privacy handler's actions). -/
structure FormResultM where
  outcomes : List Outcome
  succeeded : Bool
  actions : List PageAction
deriving DecidableEq, Repr

/-- `FormInteraction.process_form` (`form_interaction.py` lines 31-190):
declared fields, then additional fields, then `handle_privacy_field` whose
return value is discarded, then `return len(filled_fields) > 0`. -/
def process_form (page : PageEnv) (priv : PrivacyEnv) (entry : FormEntryModel)
    (profile : Profile) : FormResultM :=
  let declared := entry.fields.map (processDeclaredField page profile)
  let additional := entry.additional_fields.map (processAdditionalField page profile)
  let outcomes := declared.map (·.1) ++ additional.map (·.1)
  let actions :=
    (declared.map (·.2)).flatten ++ (additional.map (·.2)).flatten ++
      (handle_privacy_field priv entry).2
  ⟨outcomes, succeededOf outcomes, actions⟩

/-- Facts about the checkbox element `select_checkbox_by_xpath` targets:
whether some search method finds it, which interaction strategies succeed,
and the current checked state. -/
structure CheckboxEnv where
  presentFound : Bool
  clickOk : Bool
  labelOk : Bool
  jsOk : Bool
  checked : Bool
deriving DecidableEq, Repr

/-- Interaction calls `select_checkbox_by_xpath` can perform on the page. -/
inductive CbAction where
  | click
  | labelClick
  | jsSetChecked
deriving DecidableEq, Repr

/-- Result of `select_checkbox_by_xpath`: its boolean return value, the
interaction calls performed, and the element's final checked state. -/
structure CbResult where
  applied : Bool
  actions : List CbAction
  finalChecked : Bool
deriving DecidableEq, Repr

/-- `FormInteraction.select_checkbox_by_xpath` (`form_interaction.py` lines
458-545): three element-search methods (abstracted as `presentFound`), then
the interaction cascade: a direct click (which toggles a checkbox), a click
on the associated label (also a toggle), and finally a page script that sets
`checked = true` and dispatches a change event.  The current checked state is
never consulted before interacting. -/
def select_checkbox_by_xpath (env : CheckboxEnv) : CbResult :=
  if !env.presentFound then ⟨false, [], env.checked⟩
  else if env.clickOk then ⟨true, [.click], !env.checked⟩
  else if env.labelOk then ⟨true, [.labelClick], !env.checked⟩
  else if env.jsOk then ⟨true, [.jsSetChecked], true⟩
  else ⟨false, [], env.checked⟩

/-- A form entry as the session drivers (`test_forms`, `process_forms`) see
it before handing it to the orchestrator. -/
structure SessionEntry where
  error : Option String
  hasFields : Bool
  url : Option String
deriving DecidableEq, Repr

/-- How processing one non-skipped entry's loop body ends: it runs to the end
of the body (in interactive mode contributing the reviewer's note), or some
exception inside the body is caught by the per-entry `except`. -/
inductive EntryRun where
  | completes (note : String)
  | raises
deriving DecidableEq, Repr

/-- Observable result of a whole session: the notes gathered, whether
`driver.quit()` was reached, and whether the notes were written out. -/
structure SessionResult where
  notes : List (String × String)
  driverQuit : Bool
  notesSaved : Bool
deriving DecidableEq, Repr

/-- Notes accumulated by the entry loop of `test_forms` (`formTester.py`
lines 140-183): entries with an error, no fields, or no URL are skipped; a
per-entry exception is caught and contributes nothing; a completed body
always appends its note (the guard `if user_note or user_note == ''` is a
tautology). -/
def notesOf (entries : List (SessionEntry × EntryRun)) : List (String × String) :=
  entries.foldl
    (fun acc er =>
      let e := er.1
      if e.error.isSome || !e.hasFields then acc
      else
        match e.url with
        | none => acc
        | some u =>
          match er.2 with
          | .completes note => acc ++ [(u, note)]
          | .raises => acc)
    []

/-- The `finally` block of `test_forms` (`formTester.py` lines 188-198):
`driver.quit()` when a driver was acquired, `save_user_notes_to_csv` when any
notes were gathered. -/
def finalizeSession (driverAcquired : Bool) (notes : List (String × String)) :
    SessionResult :=
  ⟨notes, driverAcquired, !notes.isEmpty⟩

/-- `test_forms` (`formTester.py` lines 121-200) as a function of its exit
path: `setupOk` is whether `setup_browser()` returned; `fatalAt = some k`
models an exception escaping to the outer `except` after `k` loop iterations
(the per-entry `except` already swallows everything inside the body); every
path funnels through the `finally` block. -/
def test_forms_run (setupOk : Bool) (entries : List (SessionEntry × EntryRun))
    (fatalAt : Option Nat) : SessionResult :=
  if !setupOk then finalizeSession false []
  else
    match fatalAt with
    | some k => finalizeSession true (notesOf (entries.take k))
    | none => finalizeSession true (notesOf entries)

/-- `process_forms` (`form_submitter.py` lines 77-140): same scoped
acquisition shape without the note gathering; the result records whether
`driver.quit()` was reached. -/
def process_forms_run (setupOk : Bool) (fatalAt : Option Nat) : Bool :=
  if !setupOk then false
  else
    match fatalAt with
    | some _ => true
    | none => true

theorem charsSub_nil_left (l : List Char) : charsSub [] l = true := by
  cases l <;> simp [charsSub, charsLE]

theorem strSub_empty_left (s : String) : strSub "" s = true := by
  unfold strSub
  rw [show ("" : String).toList = [] from rfl, charsSub_nil_left]

theorem strLower_empty : strLower "" = "" := rfl

theorem idxBy_eq_none_iff (p : SelectOption → Bool) (l : List SelectOption) :
    idxBy p l = none ↔ ∀ o ∈ l, p o = false := by
  induction l with
  | nil => simp [idxBy]
  | cons a t ih =>
    by_cases h : p a
    · simp [idxBy, h]
    · have h' : p a = false := Bool.eq_false_iff.mpr h
      rw [show idxBy p (a :: t) = (idxBy p t).map (· + 1) from by simp [idxBy, h]]
      simp only [Option.map_eq_none', ih, List.mem_cons]
      constructor
      · intro hall o ho
        rcases ho with rfl | ho
        · exact h'
        · exact hall o ho
      · intro hall o ho
        exact hall o (Or.inr ho)

theorem idxBy_eq_some (p : SelectOption → Bool) (l : List SelectOption) (j : Nat)
    (h : idxBy p l = some j) :
    ∃ o, l[j]? = some o ∧ p o = true ∧
      ∀ k o', k < j → l[k]? = some o' → p o' = false := by
  induction l generalizing j with
  | nil => simp [idxBy] at h
  | cons a t ih =>
    by_cases hpa : p a
    · rw [show idxBy p (a :: t) = some 0 from by simp [idxBy, hpa]] at h
      injection h with h
      subst h
      exact ⟨a, by simp, hpa, fun k o' hk _ => absurd hk (Nat.not_lt_zero k)⟩
    · rw [show idxBy p (a :: t) = (idxBy p t).map (· + 1) from by simp [idxBy, hpa]] at h
      rw [Option.map_eq_some'] at h
      obtain ⟨j', hj', rfl⟩ := h
      obtain ⟨o, ho, hpo, hmin⟩ := ih j' hj'
      refine ⟨o, by simpa using ho, hpo, ?_⟩
      intro k o' hk hko
      cases k with
      | zero =>
        simp only [List.getElem?_cons_zero, Option.some.injEq] at hko
        subst hko
        exact Bool.eq_false_iff.mpr hpa
      | succ k' =>
        exact hmin k' o' (by omega) (by simpa using hko)

theorem idxBy_le_of_sat (p : SelectOption → Bool) (l : List SelectOption)
    (i : Nat) (o : SelectOption) (hi : l[i]? = some o) (hp : p o = true) :
    ∃ j, idxBy p l = some j ∧ j ≤ i := by
  induction l generalizing i with
  | nil => simp at hi
  | cons a t ih =>
    by_cases hpa : p a
    · exact ⟨0, by simp [idxBy, hpa], Nat.zero_le i⟩
    · cases i with
      | zero =>
        simp only [List.getElem?_cons_zero, Option.some.injEq] at hi
        subst hi
        exact absurd hp (by simpa using hpa)
      | succ i' =>
        simp only [List.getElem?_cons_succ] at hi
        obtain ⟨j, hj, hle⟩ := ih i' hi
        exact ⟨j + 1, by simp [idxBy, hpa, hj], by omega⟩

theorem lastIdxBy_none_forall (p : SelectOption → Bool) (l : List SelectOption)
    (h : lastIdxBy p l = none) : ∀ o ∈ l, p o = false := by
  induction l with
  | nil => simp
  | cons a t ih =>
    unfold lastIdxBy at h
    cases ht : lastIdxBy p t with
    | some i => rw [ht] at h; cases h
    | none =>
      rw [ht] at h
      have hpa : p a = false := by
        by_cases hp : p a
        · rw [if_pos hp] at h; cases h
        · exact Bool.eq_false_iff.mpr hp
      intro o ho
      rcases List.mem_cons.mp ho with rfl | ho
      · exact hpa
      · exact ih ht o ho

theorem lastIdxBy_spec (p : SelectOption → Bool) (l : List SelectOption) (i : Nat)
    (h : lastIdxBy p l = some i) :
    ∃ o, l[i]? = some o ∧ p o = true ∧
      ∀ k o', i < k → l[k]? = some o' → p o' = false := by
  induction l generalizing i with
  | nil => simp [lastIdxBy] at h
  | cons a t ih =>
    unfold lastIdxBy at h
    cases ht : lastIdxBy p t with
    | some i' =>
      rw [ht] at h
      injection h with h
      subst h
      obtain ⟨o, ho, hpo, hmax⟩ := ih i' ht
      refine ⟨o, by simpa using ho, hpo, ?_⟩
      intro k o' hik hko
      cases k with
      | zero => omega
      | succ k' => exact hmax k' o' (by omega) (by simpa using hko)
    | none =>
      rw [ht] at h
      by_cases hpa : p a
      · rw [if_pos hpa] at h
        injection h with h
        subst h
        refine ⟨a, by simp, hpa, ?_⟩
        intro k o' h0k hko
        cases k with
        | zero => omega
        | succ k' =>
          have hmem : o' ∈ t := by
            have := List.getElem?_eq_some.mp (by simpa using hko)
            obtain ⟨hlt, he⟩ := this
            exact he ▸ List.getElem_mem hlt
          exact lastIdxBy_none_forall p t ht o' hmem
      · rw [if_neg hpa] at h; cases h

theorem reverse_find?_none_of_lastIdxBy_none (p : SelectOption → Bool)
    (l : List SelectOption) (h : lastIdxBy p l = none) :
    l.reverse.find? p = none := by
  rw [List.find?_eq_none]
  intro o ho
  have := lastIdxBy_none_forall p l h o (List.mem_reverse.mp ho)
  simp [this]

theorem reverse_find?_of_lastIdxBy_some (p : SelectOption → Bool)
    (l : List SelectOption) (i : Nat) (h : lastIdxBy p l = some i) :
    ∃ o, l[i]? = some o ∧ l.reverse.find? p = some o := by
  induction l generalizing i with
  | nil => simp [lastIdxBy] at h
  | cons a t ih =>
    unfold lastIdxBy at h
    cases ht : lastIdxBy p t with
    | some i' =>
      rw [ht] at h
      injection h with h
      subst h
      obtain ⟨o, ho, hfind⟩ := ih i' ht
      refine ⟨o, by simpa using ho, ?_⟩
      rw [List.reverse_cons, List.find?_append, hfind]
      rfl
    | none =>
      rw [ht] at h
      by_cases hpa : p a
      · rw [if_pos hpa] at h
        injection h with h
        subst h
        refine ⟨a, by simp, ?_⟩
        rw [List.reverse_cons, List.find?_append,
          reverse_find?_none_of_lastIdxBy_none p t ht]
        simp [List.find?, hpa]
      · rw [if_neg hpa] at h; cases h

theorem lastIdxWhere_none_forall (p : String → Bool) (l : List String)
    (h : lastIdxWhere p l = none) : ∀ t ∈ l, p t = false := by
  induction l with
  | nil => simp
  | cons a t ih =>
    unfold lastIdxWhere at h
    cases ht : lastIdxWhere p t with
    | some i => rw [ht] at h; cases h
    | none =>
      rw [ht] at h
      have hpa : p a = false := by
        by_cases hp : p a
        · rw [if_pos hp] at h; cases h
        · exact Bool.eq_false_iff.mpr hp
      intro x hx
      rcases List.mem_cons.mp hx with rfl | hx
      · exact hpa
      · exact ih ht x hx

theorem lastIdxWhere_spec (p : String → Bool) (l : List String) (i : Nat)
    (h : lastIdxWhere p l = some i) :
    ∃ t, l[i]? = some t ∧ p t = true ∧
      ∀ k t', i < k → l[k]? = some t' → p t' = false := by
  induction l generalizing i with
  | nil => simp [lastIdxWhere] at h
  | cons a t ih =>
    unfold lastIdxWhere at h
    cases ht : lastIdxWhere p t with
    | some i' =>
      rw [ht] at h
      injection h with h
      subst h
      obtain ⟨x, hx, hpx, hmax⟩ := ih i' ht
      refine ⟨x, by simpa using hx, hpx, ?_⟩
      intro k x' hik hkx
      cases k with
      | zero => omega
      | succ k' => exact hmax k' x' (by omega) (by simpa using hkx)
    | none =>
      rw [ht] at h
      by_cases hpa : p a
      · rw [if_pos hpa] at h
        injection h with h
        subst h
        refine ⟨a, by simp, hpa, ?_⟩
        intro k x' h0k hkx
        cases k with
        | zero => omega
        | succ k' =>
          have hmem : x' ∈ t := by
            have h' := List.getElem?_eq_some.mp (by simpa using hkx)
            obtain ⟨hlt, he⟩ := h'
            exact he ▸ List.getElem_mem hlt
          exact lastIdxWhere_none_forall p t ht x' hmem
      · rw [if_neg hpa] at h; cases h

theorem pairwiseNe_getElem?_eq {l : List SelectOption}
    (hpw : l.Pairwise (fun a b => a.text ≠ b.text)) {i j : Nat}
    {a b : SelectOption} (ha : l[i]? = some a) (hb : l[j]? = some b)
    (h : a.text = b.text) : i = j := by
  obtain ⟨hi, ha⟩ := List.getElem?_eq_some.mp ha
  obtain ⟨hj, hb⟩ := List.getElem?_eq_some.mp hb
  rcases Nat.lt_trichotomy i j with hlt | heq | hgt
  · exact absurd (ha ▸ hb ▸ h)
      (List.pairwise_iff_getElem.mp hpw i j hi hj hlt)
  · exact heq
  · exact absurd (hb ▸ ha ▸ h.symm)
      (List.pairwise_iff_getElem.mp hpw j i hj hi hgt)

theorem find?_of_take_all_not {α : Type} (p : α → Bool) :
    ∀ (l : List α) (i : Nat) (m : α), l[i]? = some m → p m = true →
      (l.take i).all (fun a => !(p a)) = true → l.find? p = some m := by
  intro l
  induction l with
  | nil => intro i m h; simp at h
  | cons a t ih =>
    intro i m hm hp htake
    cases i with
    | zero =>
      simp only [List.getElem?_cons_zero, Option.some.injEq] at hm
      subst hm
      simp [List.find?_cons, hp]
    | succ i' =>
      simp only [List.take_succ_cons, List.all_cons, Bool.and_eq_true,
        Bool.not_eq_true'] at htake
      obtain ⟨hpa, ht⟩ := htake
      simp only [List.getElem?_cons_succ] at hm
      rw [List.find?_cons, hpa]
      exact ih i' m hm hp (by simpa using ht)

/-- C4: for every declared field whose name is verbatim (case-sensitively) a
key of the profile, the resolver returns exactly that profile value, and the
alias table is never consulted: the result is the same for every alias table
`mappings`, so neither the alias step nor any loose matching can influence
it. -/
theorem c4_exact_match_precedence (mappings : List (String × List String))
    (profile : Profile) (name : String) (v : PyVal)
    (h : lookupProfile profile name = some v) :
    resolveDeclaredWith mappings profile name = some v := by
  unfold resolveDeclaredWith
  rw [h]

/-- Witness for C4 at the profile `{"Email": "johndoe@example.com"}` and the
field name `Email`, with the source's own alias table. -/
theorem c4_exact_match_precedence_witness :
    resolveDeclaredWith field_mappings
      [("Email", PyVal.str "johndoe@example.com")] "Email" =
      some (PyVal.str "johndoe@example.com") :=
  c4_exact_match_precedence field_mappings
    [("Email", PyVal.str "johndoe@example.com")] "Email"
    (PyVal.str "johndoe@example.com") (by decide)

/-- C5: for every page environment, privacy environment, form entry and
profile, the boolean `process_form` returns is true exactly when at least one
outcome (declared or additional field) is `filled`. -/
theorem c5_succeeded_iff_some_filled (page : PageEnv) (priv : PrivacyEnv)
    (entry : FormEntryModel) (profile : Profile) :
    (process_form page priv entry profile).succeeded = true ↔
      ∃ o ∈ (process_form page priv entry profile).outcomes,
        o.isFilledB = true := by
  have hgen : ∀ l : List Outcome,
      succeededOf l = true ↔ ∃ o ∈ l, o.isFilledB = true := by
    intro l
    simp only [succeededOf, decide_eq_true_eq, List.length_pos, ne_eq,
      List.filter_eq_nil_iff, Bool.not_eq_true, not_forall]
    constructor
    · rintro ⟨o, ho, hf⟩
      exact ⟨o, ho, by simpa using hf⟩
    · rintro ⟨o, ho, hf⟩
      exact ⟨o, ho, by simpa using hf⟩
  exact hgen (process_form page priv entry profile).outcomes

/-- C7: on every exit path of the session drivers — normal completion, a
per-entry exception (absorbed inside `notesOf`), or a fatal abort (`setupOk =
false`, or `fatalAt = some k` escaping to the outer handler) — the driver is
released exactly when it was acquired, and the reviewer notes gathered up to
that point are persisted whenever any exist. -/
theorem c7_cleanup_on_every_exit (setupOk : Bool)
    (entries : List (SessionEntry × EntryRun)) (fatalAt : Option Nat) (k : Nat) :
    ((test_forms_run setupOk entries fatalAt).driverQuit = setupOk) ∧
    ((test_forms_run setupOk entries fatalAt).notesSaved =
      !(test_forms_run setupOk entries fatalAt).notes.isEmpty) ∧
    ((test_forms_run true entries (some k)).notes = notesOf (entries.take k)) ∧
    ((test_forms_run true entries none).notes = notesOf entries) ∧
    (process_forms_run setupOk fatalAt = setupOk) := by
  cases setupOk <;> cases fatalAt <;>
    simp [test_forms_run, process_forms_run, finalizeSession]

/-- C8: the outcome of the privacy/consent handling never contributes to the
form's success flag: `process_form` returns identical outcomes and an
identical boolean for any two privacy environments, however
`handle_privacy_field` fares (only the page-action trace can differ). -/
theorem c8_privacy_never_contributes (page : PageEnv) (priv1 priv2 : PrivacyEnv)
    (entry : FormEntryModel) (profile : Profile) :
    (process_form page priv1 entry profile).outcomes =
      (process_form page priv2 entry profile).outcomes ∧
    (process_form page priv1 entry profile).succeeded =
      (process_form page priv2 entry profile).succeeded :=
  ⟨rfl, rfl⟩

/-- C1 counterexample: a checkbox that is present, clickable and ALREADY
checked (the desired state for a `True` value).  `select_checkbox_by_xpath`
still performs a click — one interaction, not zero — and that click toggles
the box to unchecked, while the function reports success. -/
theorem c1_checkbox_idempotence_cex :
    select_checkbox_by_xpath ⟨true, true, true, true, true⟩ =
      ⟨true, [CbAction.click], false⟩ ∧
    (select_checkbox_by_xpath ⟨true, true, true, true, true⟩).actions ≠ [] := by
  decide

/-- C1 amended: only the privacy/consent handler is idempotent — whenever the
element it finds has attribute type `checkbox` and is already selected, it
returns `Applied` (the already-selected branch) with zero interaction
actions; `select_checkbox_by_xpath` never consults the current state: on a
found, clickable control it always performs the direct click, toggling an
already-checked box to unchecked while still returning success. -/
theorem c1_checkbox_idempotence_amended :
    (∀ (priv : PrivacyEnv) (entry : FormEntryModel),
      privacyElemFound priv entry = true → priv.isCheckboxType = true →
      priv.isSelected = true →
      handle_privacy_field priv entry = (.alreadySelected, [])) ∧
    (∀ env : CheckboxEnv, env.presentFound = true → env.clickOk = true →
      env.checked = true →
      select_checkbox_by_xpath env = ⟨true, [.click], false⟩) := by
  constructor
  · intro priv entry hfound hcb hsel
    unfold handle_privacy_field
    rw [hfound, hcb, hsel]
    rfl
  · intro env hfound hclick hchecked
    unfold select_checkbox_by_xpath
    rw [hfound, hclick, hchecked]
    rfl

/-- Witness for the amended C1: a Vue-found, already-selected consent
checkbox produces the idempotent branch with no interactions, while a
present, clickable, already-checked ordinary checkbox is clicked off. -/
theorem c1_checkbox_idempotence_witness :
    handle_privacy_field ⟨true, false, true, true, false⟩ ⟨[], []⟩ =
      (.alreadySelected, []) ∧
    select_checkbox_by_xpath ⟨true, true, false, false, true⟩ =
      ⟨true, [.click], false⟩ :=
  ⟨c1_checkbox_idempotence_amended.1 ⟨true, false, true, true, false⟩ ⟨[], []⟩
      (by decide) rfl rfl,
    c1_checkbox_idempotence_amended.2 ⟨true, true, false, false, true⟩
      rfl rfl rfl⟩

/-- C2 counterexample: the profile holds canonical key `Email`, the field
name `EMAIL` equals the synonym `Email` of that canonical key up to letter
case (their lowerings agree, and that synonym list is in the alias table),
and `EMAIL` is not itself a profile key — yet the resolver returns `none`,
not `profile["Email"]`: the synonym comparison is case-sensitive. -/
theorem c2_alias_case_cex :
    resolveDeclared [("Email", PyVal.str "x")] "EMAIL" = none ∧
    resolveDeclared [("Email", PyVal.str "x")] "EMAIL" ≠ some (PyVal.str "x") ∧
    lookupProfile [("Email", PyVal.str "x")] "EMAIL" = none ∧
    strLower "EMAIL" = strLower "Email" ∧
    ("Email", ["Email", "EmailAddress", "email_address"]) ∈ field_mappings ∧
    lookupProfile [("Email", PyVal.str "x")] "Email" = some (PyVal.str "x") := by
  decide

/-- C2 amended: the alias step compares the field name to the synonym strings
case-SENSITIVELY (exact string equality): if the entry at position `i` of the
alias table is the first (everything before it fails the test) whose synonym
list contains the field name verbatim with its canonical key present in the
profile, and the field name is not itself a profile key, the resolver returns
that canonical key's profile value. -/
theorem c2_alias_case_sensitive_amended (profile : Profile) (name : String)
    (i : Nat) (k : String) (syns : List String)
    (h0 : lookupProfile profile name = none)
    (h1 : field_mappings[i]? = some (k, syns))
    (h2 : (syns.contains name && (lookupProfile profile k).isSome) = true)
    (h3 : (field_mappings.take i).all
      (fun m => !(m.2.contains name && (lookupProfile profile m.1).isSome)) = true) :
    resolveDeclared profile name = lookupProfile profile k := by
  unfold resolveDeclared resolveDeclaredWith
  rw [h0]
  rw [find?_of_take_all_not
    (fun m => m.2.contains name && (lookupProfile profile m.1).isSome)
    field_mappings i (k, syns) h1 h2 h3]

/-- Witness for the amended C2: field `EmailAddress` is verbatim a synonym of
canonical key `Email` (position 3 of the table; no earlier entry matches),
so it resolves to the profile's `Email` value. -/
theorem c2_alias_case_sensitive_amended_witness :
    resolveDeclared [("Email", PyVal.str "x")] "EmailAddress" =
      some (PyVal.str "x") := by
  rw [c2_alias_case_sensitive_amended [("Email", PyVal.str "x")] "EmailAddress"
    3 "Email" ["Email", "EmailAddress", "email_address"]
    (by decide) (by decide) (by decide) (by decide)]
  decide

/-- C6 counterexample: a declared field whose descriptor carries
`found = false` but a non-empty locator and a resolvable name IS attempted:
the orchestrator performs the element wait and the clear-and-type
interaction, because `process_form` never reads the `found` flag of ordinary
fields. -/
theorem c6_found_flag_cex :
    processDeclaredField
        ⟨fun _ => true, fun _ => "input", fun _ => true⟩
        [("Email", PyVal.str "a")] ("Email", ⟨"//e", "text", false⟩) =
      (.filled "Email" (PyVal.str "a"),
        [.waitClickable "//e", .clearAndType "//e"]) ∧
    (processDeclaredField
        ⟨fun _ => true, fun _ => "input", fun _ => true⟩
        [("Email", PyVal.str "a")] ("Email", ⟨"//e", "text", false⟩)).2 ≠ [] := by
  decide

/-- C6 amended: a field with an empty locator is indeed never attempted (no
wait, lookup or page interaction, for declared and additional fields alike),
but the `found` flag is not consulted by the orchestrator for ordinary
fields: the whole per-field result is invariant under flipping `found` (only
the privacy handler reads a `found` flag). -/
theorem c6_skip_conditions_amended (page : PageEnv) (profile : Profile) :
    (∀ (name : String) (info : FieldInfo), info.xpath = "" →
      (processDeclaredField page profile (name, info)).2 = []) ∧
    (∀ (name : String) (info : FieldInfo) (b : Bool),
      processDeclaredField page profile (name, { info with found := b }) =
        processDeclaredField page profile (name, info)) ∧
    (∀ af : AdditionalField, af.xpath = "" →
      (processAdditionalField page profile af).2 = []) := by
  refine ⟨?_, ?_, ?_⟩
  · intro name info hx
    obtain ⟨xp, ft, fd⟩ := info
    simp only at hx
    subst hx
    cases h : resolveDeclared profile name <;>
      simp [processDeclaredField, h]
  · intro name info b
    rfl
  · intro af hx
    obtain ⟨fn, xp, et⟩ := af
    simp only at hx
    subst hx
    cases h : resolveAdditional profile fn <;>
      simp [processAdditionalField, h]

/-- Witness for the amended C6: concrete empty-locator descriptors produce
empty action traces, applied through the amended theorem. -/
theorem c6_skip_conditions_amended_witness :
    (processDeclaredField ⟨fun _ => true, fun _ => "input", fun _ => true⟩
      [("Email", PyVal.str "a")] ("Email", ⟨"", "text", true⟩)).2 = [] ∧
    (processAdditionalField ⟨fun _ => true, fun _ => "input", fun _ => true⟩
      [("Email", PyVal.str "a")] ⟨"name", "", "text"⟩).2 = [] :=
  ⟨(c6_skip_conditions_amended ⟨fun _ => true, fun _ => "input", fun _ => true⟩
      [("Email", PyVal.str "a")]).1 "Email" ⟨"", "text", true⟩ rfl,
    (c6_skip_conditions_amended ⟨fun _ => true, fun _ => "input", fun _ => true⟩
      [("Email", PyVal.str "a")]).2.2 ⟨"name", "", "text"⟩ rfl⟩

/-- C9 counterexample: with the non-empty profile `{"": "v"}` (first key the
empty string) and an additional field with empty name and non-empty locator,
the loose matcher DOES match the first profile key, but the code's
`if not matching_key` treats the falsy empty-string key as no match: the
field is skipped as no-match, not filled. -/
theorem c9_empty_name_cex :
    resolveAdditional [("", PyVal.str "v")] "" = none ∧
    processAdditionalField ⟨fun _ => true, fun _ => "input", fun _ => true⟩
        [("", PyVal.str "v")] ⟨"", "//a", "text"⟩ =
      (.skippedNoMatch "", []) := by
  decide

/-- C9 amended: for an additional field with empty name and non-empty
locator, and any profile whose FIRST key is a non-empty string, the loose
matcher resolves to that first key's value (the empty string is a substring
of every key), and a text-kind, present, interactable field is then filled
with it rather than skipped. -/
theorem c9_empty_name_matches_first_amended (page : PageEnv) (k : String)
    (v : PyVal) (rest : Profile) (af : AdditionalField)
    (h0 : af.field_name = "") (h1 : af.xpath ≠ "") (h2 : k ≠ "")
    (h3 : af.element_type = "text")
    (h4 : strLower (page.tagName af.xpath) ≠ "select")
    (h5 : page.clickable af.xpath = true)
    (h6 : page.interactOk af.xpath = true) :
    resolveAdditional ((k, v) :: rest) af.field_name = some (k, v) ∧
    processAdditionalField page ((k, v) :: rest) af =
      (.filled "" v, [.waitClickable af.xpath, .clearAndType af.xpath]) := by
  have hk : (k == "") = false := by
    simpa using h2
  have hx : (af.xpath == "") = false := by simpa using h1
  have ht : (strLower (page.tagName af.xpath) == "select") = false := by
    simpa using h4
  have hres : resolveAdditional ((k, v) :: rest) "" = some (k, v) := by
    simp only [resolveAdditional, matchAdditional, strLower_empty,
      List.find?_cons, strSub_empty_left, Bool.or_true, hk,
      Bool.false_eq_true, if_false]
  constructor
  · rw [h0]
    exact hres
  · simp only [processAdditionalField, h0, strLower_empty, hx,
      Bool.false_eq_true, if_false, hres, h5, h3, ht, h6, Bool.not_true,
      show strLower "text" = "text" from rfl,
      show (("text" : String) == "select") = false from rfl,
      show (("text" : String) == "checkbox") = false from rfl,
      Bool.false_or, Bool.false_and, if_true]

/-- Witness for the amended C9: the concrete profile `{"Email": "a"}` with an
empty-named additional text field is filled with the first key's value. -/
theorem c9_empty_name_matches_first_amended_witness :
    resolveAdditional [("Email", PyVal.str "a")] "" =
      some ("Email", PyVal.str "a") ∧
    processAdditionalField ⟨fun _ => true, fun _ => "input", fun _ => true⟩
        [("Email", PyVal.str "a")] ⟨"", "//a", "text"⟩ =
      (.filled "" (PyVal.str "a"),
        [.waitClickable "//a", .clearAndType "//a"]) :=
  c9_empty_name_matches_first_amended
    ⟨fun _ => true, fun _ => "input", fun _ => true⟩ "Email" (PyVal.str "a")
    [] ⟨"", "//a", "text"⟩ rfl (by decide) (by decide) rfl (by decide)
    rfl rfl

/-- C3 counterexample: two failures of the claim as stated.  Native path:
options `[("B","v1"), ("B","v2")]` with no content match — the last valid
option is at index 1, but the fallback re-selects through
`select_by_visible_text`, which picks the FIRST option with that text, so
the control ends on index 0 (value attribute `v1`, not `v2`): the selector
does not pick the last valid item.  Custom path: an all-placeholder item
list `["select", "choose", "pick"]` gets `dropdown_items[-1]` clicked —
ordinal position 2, not the claimed ordinal position 1. -/
theorem c3_dropdown_fallback_cex :
    (handle_dropdown [⟨"B", "v1"⟩, ⟨"B", "v2"⟩] "zzz" =
        some (0, .lastValid) ∧
      lastValidIdx [⟨"B", "v1"⟩, ⟨"B", "v2"⟩] = some 1 ∧
      findTextIdx [⟨"B", "v1"⟩, ⟨"B", "v2"⟩] "zzz" = none ∧
      findValIdx [⟨"B", "v1"⟩, ⟨"B", "v2"⟩] "zzz" = none ∧
      strategy3 [⟨"B", "v1"⟩, ⟨"B", "v2"⟩] "zzz" = none) ∧
    (handle_custom_dropdown ["select", "choose", "pick"] "zzz" =
        some (2, .lastItem) ∧
      lastIdxWhere isValidItemText ["select", "choose", "pick"] = none) := by
  decide

/-- C3 amended: on a NATIVE select with no content match from strategies
1-3, the fallback selects the first option carrying the text of the last
valid (truthy-stripped, non-placeholder) option — the last valid option
itself whenever option texts are pairwise distinct — and when no option is
valid it selects ordinal position 1.  On a CUSTOM-rendered control whose
discovered items yield no exact or substring match, the last valid item
itself is clicked (no text re-selection there), and when every item is
invalid the LAST item is clicked, not ordinal position 1.  The existential
blocks restate what `lastValidIdx`/`lastIdxWhere` compute: the entry there
is valid and everything after it is not. -/
theorem c3_dropdown_fallback_amended :
    (∀ (opts : List SelectOption) (v : String),
      findTextIdx opts v = none → findValIdx opts v = none →
      strategy3 opts v = none →
      (∀ i, lastValidIdx opts = some i →
        (∃ o, opts[i]? = some o ∧ isValidOption o = true ∧
          ∀ k o', i < k → opts[k]? = some o' → isValidOption o' = false) ∧
        (∃ j o, handle_dropdown opts v = some (j, .lastValid) ∧ j ≤ i ∧
          opts[j]? = some o ∧ isValidOption o = true ∧
          (∀ oi, opts[i]? = some oi → o.text = oi.text) ∧
          (opts.Pairwise (fun a b => a.text ≠ b.text) → j = i))) ∧
      (lastValidIdx opts = none → 1 < opts.length →
        handle_dropdown opts v = some (1, .indexOne))) ∧
    (∀ (items : List String) (v : String),
      firstIdxWhere (fun t => strLower t == strLower v) items = none →
      firstIdxWhere (fun t => strSub (strLower v) (strLower t)) items = none →
      (∀ i, lastIdxWhere isValidItemText items = some i →
        (∃ t, items[i]? = some t ∧ isValidItemText t = true ∧
          ∀ k t', i < k → items[k]? = some t' → isValidItemText t' = false) ∧
        handle_custom_dropdown items v = some (i, .lastValidItem)) ∧
      (lastIdxWhere isValidItemText items = none → items ≠ [] →
        handle_custom_dropdown items v = some (items.length - 1, .lastItem))) := by
  constructor
  · intro opts v h1 h2 h3
    constructor
    · intro i hi
      refine ⟨lastIdxBy_spec _ _ _ hi, ?_⟩
      obtain ⟨o, ho, hrev⟩ := reverse_find?_of_lastIdxBy_some _ _ _ hi
      have hs5 : strategy5 opts = findTextIdx opts o.text := by
        unfold strategy5
        rw [hrev]
      obtain ⟨j, hj, hle⟩ :=
        idxBy_le_of_sat (fun x => x.text == o.text) opts i o ho (by simp)
      have hj' : findTextIdx opts o.text = some j := hj
      have hd : handle_dropdown opts v = some (j, .lastValid) := by
        unfold handle_dropdown
        rw [h1, h2, h3, hs5, hj']
      obtain ⟨o', hjo, hpo', _hmin⟩ := idxBy_eq_some _ _ _ hj
      have hto : o'.text = o.text := by simpa using hpo'
      obtain ⟨oi0, hoi0, hvoi0, _⟩ := lastIdxBy_spec _ _ _ hi
      have hoo : o = oi0 := by
        have h' := ho.symm.trans hoi0
        injection h'
      refine ⟨j, o', hd, hle, hjo, ?_, ?_, ?_⟩
      · have hvo : isValidOption o = true := hoo ▸ hvoi0
        unfold isValidOption at hvo ⊢
        rw [hto]
        exact hvo
      · intro oi hoi
        have h' := ho.symm.trans hoi
        injection h' with h'
        rw [hto, h']
      · intro hpw
        exact pairwiseNe_getElem?_eq hpw hjo ho hto
    · intro hnone hlen
      have hrev : opts.reverse.find? isValidOption = none :=
        reverse_find?_none_of_lastIdxBy_none _ _ hnone
      have hs5 : strategy5 opts = none := by
        unfold strategy5
        rw [hrev]
      unfold handle_dropdown
      rw [h1, h2, h3, hs5, if_pos hlen]
  · intro items v h1 h2
    constructor
    · intro i hi
      refine ⟨lastIdxWhere_spec _ _ _ hi, ?_⟩
      unfold handle_custom_dropdown
      rw [h1, h2, hi, if_pos ?_]
      obtain ⟨t, ht, _, _⟩ := lastIdxWhere_spec _ _ _ hi
      obtain ⟨hlt, _⟩ := List.getElem?_eq_some.mp ht
      omega
    · intro hnone hne
      unfold handle_custom_dropdown
      rw [h1, h2, hnone, if_pos (List.length_pos.mpr hne)]

/-- Witness for the amended C3: the spec's example
`["-- Select --", "Option A", "Option B"]` with desired `"United States"`
selects index 2 (`"Option B"`, distinct texts) on the native path, and a
custom item list with a valid last item has exactly that item clicked. -/
theorem c3_dropdown_fallback_amended_witness :
    handle_dropdown
      [⟨"-- Select --", "0"⟩, ⟨"Option A", "a"⟩, ⟨"Option B", "b"⟩]
      "United States" = some (2, .lastValid) ∧
    handle_custom_dropdown ["select", "Item A", "Item B"] "United States" =
      some (2, .lastValidItem) := by
  constructor
  · obtain ⟨_, j, o, hd, hle, hjo, hvo, htext, hdist⟩ :=
      (c3_dropdown_fallback_amended.1
        [⟨"-- Select --", "0"⟩, ⟨"Option A", "a"⟩, ⟨"Option B", "b"⟩]
        "United States" (by decide) (by decide) (by decide)).1 2 (by decide)
    have hj : j = 2 := hdist (by decide)
    rw [hj] at hd
    exact hd
  · exact ((c3_dropdown_fallback_amended.2 ["select", "Item A", "Item B"]
      "United States" (by decide) (by decide)).1 2 (by decide)).2

/-- C10: on a native select all of whose options have non-empty visible text
and non-empty value attributes, the empty string as desired value selects the
FIRST option in declared order (placeholder included) through the
case-insensitive substring strategy — the empty string is a substring of
every text — so the placeholder-avoiding fallback is never reached. -/
theorem c10_empty_desired_selects_first (o : SelectOption) (t : List SelectOption)
    (hall : ∀ x ∈ o :: t, x.text ≠ "" ∧ x.val ≠ "") :
    handle_dropdown (o :: t) "" = some (0, .substrText) := by
  have h1 : findTextIdx (o :: t) "" = none := by
    have h : idxBy (fun x => x.text == "") (o :: t) = none := by
      rw [idxBy_eq_none_iff]
      intro x hx
      simpa using (hall x hx).1
    exact h
  have h2 : findValIdx (o :: t) "" = none := by
    have h : idxBy (fun x => x.val == "") (o :: t) = none := by
      rw [idxBy_eq_none_iff]
      intro x hx
      simpa using (hall x hx).2
    exact h
  have h3 : strategy3 (o :: t) "" = some 0 := by
    simp [strategy3, List.find?_cons, strLower_empty, strSub_empty_left,
      findTextIdx, idxBy]
  unfold handle_dropdown
  rw [h1, h2, h3]

/-- Witness for C10: a concrete two-option select with a placeholder first
option and the empty desired value selects index 0 by the substring
strategy. -/
theorem c10_empty_desired_selects_first_witness :
    handle_dropdown [⟨"-- Select --", "s"⟩, ⟨"Option A", "a"⟩] "" =
      some (0, .substrText) :=
  c10_empty_desired_selects_first ⟨"-- Select --", "s"⟩ [⟨"Option A", "a"⟩]
    (by decide)

end SeleniumAutomation
